import Mathlib

/-!
Verification of the workflow-orchestration core of the financial-system
repository (multi-agent investment research).  The definitions below are a
shallow embedding of the Python source:

* `backend/agents/state.py`       — the `AgentState` TypedDict and its
  per-field merge policies (`operator.add` for lists, `operator.or_` for
  dicts, last-write-wins otherwise) and `create_initial_state`;
* `backend/agents/base_agent.py`  — the `BaseAgent.__call__` execution
  envelope (retry with exponential backoff) and `_is_transient_error`;
* `backend/agents/graph.py`       — `route_to_agents` and `validation_node`;
* `backend/agents/router_agent.py`— the `_analyze_intent` fallback policy;
* `backend/agents/report_agent.py`— `_generate_report_with_reflection` and
  `_evaluate_report_quality`;
* `backend/agents/market_data_agent.py` — `MarketDataAgent.execute`;
* `backend/api/routes/research.py`— the `market_data_available` computation.

Modelling conventions: Python `float` values are embedded as `Rat` (the code
proved about performs no float arithmetic beyond exact products with powers
of two and comparisons away from rounding boundaries); Python `dict` is an
association list (`Dict`) with Python's `{**a, **b}` insertion-order
semantics; `Any`-typed leaf values are `PyVal`, covering the value kinds the
source stores in those slots; the remote calls a node makes (LLM, market
data, vector store) are oracles passed in as function arguments, and an
exception raised by the Python code is an `Except.error` carrying the
exception's type name and message.
-/

/-- A raised Python exception, as the error classifier sees it:
`typeName` is `type(error).__name__` and `msg` is `str(error)`. -/
structure PyError where
  typeName : String
  msg : String
deriving DecidableEq, Repr

/-- `leadsWith n h` is true when the character list `n` is an initial
segment of `h`. -/
def leadsWith : List Char → List Char → Bool
  | [], _ => true
  | _ :: _, [] => false
  | a :: as, b :: bs => a = b && leadsWith as bs

/-- `occursIn n h` is true when the character list `n` occurs contiguously
inside `h`. -/
def occursIn (needle : List Char) : List Char → Bool
  | [] => needle.isEmpty
  | c :: rest => leadsWith needle (c :: rest) || occursIn needle rest

/-- Python's `needle in haystack` substring test on strings. -/
def substrIn (needle hay : String) : Bool :=
  occursIn needle.data hay.data

/-- Python's `str.lower()` (character-wise lowercasing; the source only
lowercases ASCII exception text). -/
def pyLower (s : String) : String :=
  ⟨s.data.map Char.toLower⟩

/-- `transient_keywords` from `BaseAgent._is_transient_error`
(`backend/agents/base_agent.py`). -/
def transientKeywords : List String :=
  ["timeout", "rate limit", "429", "503", "502",
   "connection", "temporary", "unavailable"]

/-- `non_transient_types` from `BaseAgent._is_transient_error`
(`backend/agents/base_agent.py`). -/
def nonTransientTypes : List String :=
  ["ValueError", "TypeError", "KeyError", "AttributeError",
   "AuthenticationError", "PermissionError"]

/-- `BaseAgent._is_transient_error` (`backend/agents/base_agent.py`,
lines 209-264): the error type is checked first (permanent types are never
retried), then the lowercased message is scanned for transient keywords,
and anything unrecognized defaults to non-transient. -/
def isTransientError (e : PyError) : Bool :=
  let errorStr := pyLower e.msg
  if e.typeName ∈ nonTransientTypes then
    false
  else if transientKeywords.any (fun kw => substrIn kw errorStr) then
    true
  else
    false

/-- C5: the classifier returns transient iff the exception's type name is
not one of the permanent types AND the (lowercased) message contains a
transient keyword; the type check takes precedence and anything matching
neither rule is permanent. -/
theorem isTransientError_iff (e : PyError) :
    isTransientError e = true ↔
      e.typeName ∉ nonTransientTypes ∧
        ∃ kw ∈ transientKeywords, substrIn kw (pyLower e.msg) = true := by
  unfold isTransientError
  by_cases hty : e.typeName ∈ nonTransientTypes
  · simp [hty]
  · simp [hty, List.any_eq_true]

/-- An `Any`-typed Python leaf value as stored by this code base in its
metric, metadata and peer-comparison dictionaries (None, bool, int, float
or string). -/
inductive PyVal where
  | pyNone
  | pyBool (b : Bool)
  | pyInt (n : Int)
  | pyFloat (q : Rat)
  | pyStr (s : String)
deriving DecidableEq, Repr

/-- A Python `dict` with string keys, embedded as an association list in
insertion order (Python dicts preserve insertion order and never hold a
key twice). -/
abbrev Dict (V : Type) : Type := List (String × V)

/-- Python `d.get(k)` / `d[k]`: the value stored under `k`, if any. -/
def dictLookup {V : Type} : Dict V → String → Option V
  | [], _ => none
  | kv :: rest, k => if kv.1 = k then some kv.2 else dictLookup rest k

/-- Python `k in d`. -/
def dictHasKey {V : Type} (d : Dict V) (k : String) : Bool :=
  (dictLookup d k).isSome

/-- Python `operator.or_` on dicts, i.e. `{**a, **b}`: the keys of `a` in
their order (with `b`'s value where both define a key) followed by the keys
only `b` defines, in `b`'s order. -/
def dictOr {V : Type} (a b : Dict V) : Dict V :=
  a.map (fun kv =>
    match dictLookup b kv.1 with
    | some v => (kv.1, v)
    | none => kv) ++
  b.filter (fun kv => (dictLookup a kv.1).isNone)

/-- Equality of optional values up to a value comparison. -/
def optBeqWith {V : Type} (vbeq : V → V → Bool) : Option V → Option V → Bool
  | some x, some y => vbeq x y
  | none, none => true
  | _, _ => false

/-- Python `==` on dicts up to a value comparison: the same keys are
present and the values stored under each key compare equal (Python dict
equality ignores insertion order). -/
def dictBeqWith {V : Type} (vbeq : V → V → Bool) (a b : Dict V) : Bool :=
  a.all (fun kv => optBeqWith vbeq (dictLookup a kv.1) (dictLookup b kv.1)) &&
  b.all (fun kv => optBeqWith vbeq (dictLookup a kv.1) (dictLookup b kv.1))

/-- Python `==` on dicts whose values have decidable (structural)
equality. -/
def dictBeq {V : Type} [DecidableEq V] (a b : Dict V) : Bool :=
  dictBeqWith (fun x y => decide (x = y)) a b

/-- `disjointKeys a b` holds when no key of `a` is a key of `b`. -/
def disjointKeys {V W : Type} (a : Dict V) (b : Dict W) : Bool :=
  a.all (fun kv => (dictLookup b kv.1).isNone)

/-- `AgentMessage` (`backend/agents/state.py`): one turn of conversation
history. -/
structure AgentMessage where
  role : String
  content : String
  timestamp : String
deriving DecidableEq, Repr

/-- `MarketData` (`backend/agents/state.py`): one ticker's market data. -/
structure MarketData where
  ticker : String
  current_price : Option Rat
  change_percent : Option Rat
  volume : Option Int
  market_cap : Option Int
  pe_ratio : Option Rat
  day_high : Option Rat
  day_low : Option Rat
  year_high : Option Rat
  year_low : Option Rat
  week_52_position : Option Rat
  distance_from_high : Option Rat
  distance_from_low : Option Rat
  trend_signal : Option String
deriving DecidableEq, Repr

/-- `SentimentAnalysis` (`backend/agents/state.py`). -/
structure SentimentAnalysis where
  ticker : String
  overall_sentiment : String
  confidence : Rat
  key_themes : List String
  news_count : Int
  summary : String
deriving DecidableEq, Repr

/-- `AnalystConsensus` (`backend/agents/state.py`). -/
structure AnalystConsensus where
  ticker : String
  target_price_mean : Option Rat
  target_price_high : Option Rat
  target_price_low : Option Rat
  current_price : Option Rat
  upside_potential : Option Rat
  recommendation : Option String
  num_analysts : Option Int
deriving DecidableEq, Repr

/-- `PeerValuation` (`backend/agents/state.py`). -/
structure PeerValuation where
  ticker : String
  sector : Option String
  industry : Option String
  pe_ratio : Option Rat
  price_to_book : Option Rat
  price_to_sales : Option Rat
  sector_avg_pe : Option Rat
  sector_avg_pb : Option Rat
  sector_avg_ps : Option Rat
  pe_premium_discount : Option Rat
  pb_premium_discount : Option Rat
  ps_premium_discount : Option Rat
  peer_count : Int
deriving DecidableEq, Repr

/-- `RetrievedContext` (`backend/agents/state.py`). -/
structure RetrievedContext where
  text : String
  source : String
  ticker : String
  similarity : Rat
  metadata : Dict PyVal
deriving DecidableEq, Repr

/-- `PricePoint` (`backend/agents/state.py`). -/
structure PricePoint where
  date : String
  openPrice : Rat
  high : Rat
  low : Rat
  close : Rat
  volume : Int
deriving DecidableEq, Repr

/-- `VisualizationData` (`backend/agents/state.py`). -/
structure VisualizationData where
  ticker : String
  price_history : List PricePoint
  week_52_high : Option Rat
  week_52_low : Option Rat
  current_price : Option Rat
  current_position_pct : Option Rat
  peer_comparison : List (Dict PyVal)
  period_high : Option Rat
  period_low : Option Rat
  average_volume : Option Int
deriving DecidableEq, Repr

/-- `InvestorSnapshot` (`backend/agents/state.py`). -/
structure InvestorSnapshot where
  ticker : String
  current_price : Option Rat
  price_change_pct : Option Rat
  market_cap : Option Int
  pe_ratio : Option Rat
  investment_rating : String
  rating_explanation : String
  key_highlights : List String
  risk_warnings : List String
deriving DecidableEq, Repr

/-- `ReportMetadata` (`backend/agents/state.py`). -/
structure ReportMetadata where
  executed_agents : List String
  data_sources : Dict Bool
  intent : String
  tickers : List String
  report_template : String
deriving DecidableEq, Repr

/-- `AgentState` (`backend/agents/state.py`, lines 143-196): the single
typed record LangGraph threads through the graph.  Fields annotated
`operator.add` / `operator.or_` in the source are the append-list /
union-map accumulator fields; every other field is last-write-wins. -/
structure AgentState where
  session_id : String
  user_query : String
  conversation_history : List AgentMessage
  intent : String
  tickers : List String
  should_fetch_market_data : Bool
  should_analyze_sentiment : Bool
  should_retrieve_context : Bool
  executed_agents : List String
  agent_errors : Dict String
  agent_metrics : Dict (Dict PyVal)
  reasoning_chains : Dict (List String)
  market_data : List MarketData
  sentiment_analysis : List SentimentAnalysis
  retrieved_context : List RetrievedContext
  analyst_consensus : List AnalystConsensus
  peer_valuation : List PeerValuation
  visualization_data : List VisualizationData
  report : Option String
  snapshot : Option InvestorSnapshot
  report_metadata : Option ReportMetadata
  errors : List String
  timestamp : String
  total_tokens_used : Int
  retry_count : Int
deriving DecidableEq, Repr

/-- A partial state update as returned by a node: for each `AgentState`
field, `none` means the key is absent from the returned dict and the field
is left untouched by the merge. -/
structure StateUpdate where
  session_id : Option String := none
  user_query : Option String := none
  conversation_history : Option (List AgentMessage) := none
  intent : Option String := none
  tickers : Option (List String) := none
  should_fetch_market_data : Option Bool := none
  should_analyze_sentiment : Option Bool := none
  should_retrieve_context : Option Bool := none
  executed_agents : Option (List String) := none
  agent_errors : Option (Dict String) := none
  agent_metrics : Option (Dict (Dict PyVal)) := none
  reasoning_chains : Option (Dict (List String)) := none
  market_data : Option (List MarketData) := none
  sentiment_analysis : Option (List SentimentAnalysis) := none
  retrieved_context : Option (List RetrievedContext) := none
  analyst_consensus : Option (List AnalystConsensus) := none
  peer_valuation : Option (List PeerValuation) := none
  visualization_data : Option (List VisualizationData) := none
  report : Option (Option String) := none
  snapshot : Option (Option InvestorSnapshot) := none
  report_metadata : Option (Option ReportMetadata) := none
  errors : Option (List String) := none
  timestamp : Option String := none
  total_tokens_used : Option Int := none
  retry_count : Option Int := none
deriving DecidableEq, Repr

/-- Merge policy for an unannotated field: last write wins, untouched when
the update omits the key. -/
def applyOv {α : Type} (x : α) (o : Option α) : α :=
  o.getD x

/-- Merge policy for an `Annotated[..., operator.add]` field: the update's
elements are concatenated onto the existing list. -/
def applyAdd {α : Type} (x : List α) (o : Option (List α)) : List α :=
  x ++ o.getD []

/-- Merge policy for an `Annotated[..., operator.or_]` field: the update's
entries are unioned in, the update winning per key. -/
def applyOr {V : Type} (d : Dict V) (o : Option (Dict V)) : Dict V :=
  dictOr d (o.getD [])

/-- `merge(current_state, partial_update)`: LangGraph applies each field
present in the update through the per-field policy declared on
`AgentState` (`backend/agents/state.py`). -/
def applyUpdate (s : AgentState) (u : StateUpdate) : AgentState where
  session_id := applyOv s.session_id u.session_id
  user_query := applyOv s.user_query u.user_query
  conversation_history := applyOv s.conversation_history u.conversation_history
  intent := applyOv s.intent u.intent
  tickers := applyOv s.tickers u.tickers
  should_fetch_market_data := applyOv s.should_fetch_market_data u.should_fetch_market_data
  should_analyze_sentiment := applyOv s.should_analyze_sentiment u.should_analyze_sentiment
  should_retrieve_context := applyOv s.should_retrieve_context u.should_retrieve_context
  executed_agents := applyAdd s.executed_agents u.executed_agents
  agent_errors := applyOr s.agent_errors u.agent_errors
  agent_metrics := applyOr s.agent_metrics u.agent_metrics
  reasoning_chains := applyOr s.reasoning_chains u.reasoning_chains
  market_data := applyAdd s.market_data u.market_data
  sentiment_analysis := applyAdd s.sentiment_analysis u.sentiment_analysis
  retrieved_context := applyAdd s.retrieved_context u.retrieved_context
  analyst_consensus := applyAdd s.analyst_consensus u.analyst_consensus
  peer_valuation := applyAdd s.peer_valuation u.peer_valuation
  visualization_data := applyAdd s.visualization_data u.visualization_data
  report := applyOv s.report u.report
  snapshot := applyOv s.snapshot u.snapshot
  report_metadata := applyOv s.report_metadata u.report_metadata
  errors := applyAdd s.errors u.errors
  timestamp := applyOv s.timestamp u.timestamp
  total_tokens_used := applyOv s.total_tokens_used u.total_tokens_used
  retry_count := applyOv s.retry_count u.retry_count

/-- `create_initial_state` (`backend/agents/state.py`, lines 199-255).
`timestamp` is a parameter because the source reads the wall clock
(`datetime.utcnow().isoformat()`). -/
def createInitialState (session_id user_query : String)
    (conversation_history : List AgentMessage) (timestamp : String) :
    AgentState where
  session_id := session_id
  user_query := user_query
  conversation_history := conversation_history
  intent := "general_research"
  tickers := []
  should_fetch_market_data := false
  should_analyze_sentiment := false
  should_retrieve_context := false
  executed_agents := []
  agent_errors := []
  agent_metrics := []
  reasoning_chains := []
  market_data := []
  sentiment_analysis := []
  retrieved_context := []
  analyst_consensus := []
  peer_valuation := []
  visualization_data := []
  report := none
  snapshot := none
  report_metadata := none
  errors := []
  timestamp := timestamp
  total_tokens_used := 0
  retry_count := 0

/-- Python `==` on two `AgentState` values: list-valued fields compare
elementwise in order, dict-valued fields compare as maps (insertion order
ignored, nested dicts again as maps), scalar fields compare by value. -/
def pyStateEq (a b : AgentState) : Bool :=
  decide (a.session_id = b.session_id) &&
  decide (a.user_query = b.user_query) &&
  decide (a.conversation_history = b.conversation_history) &&
  decide (a.intent = b.intent) &&
  decide (a.tickers = b.tickers) &&
  decide (a.should_fetch_market_data = b.should_fetch_market_data) &&
  decide (a.should_analyze_sentiment = b.should_analyze_sentiment) &&
  decide (a.should_retrieve_context = b.should_retrieve_context) &&
  decide (a.executed_agents = b.executed_agents) &&
  dictBeq a.agent_errors b.agent_errors &&
  dictBeqWith dictBeq a.agent_metrics b.agent_metrics &&
  dictBeq a.reasoning_chains b.reasoning_chains &&
  decide (a.market_data = b.market_data) &&
  decide (a.sentiment_analysis = b.sentiment_analysis) &&
  decide (a.retrieved_context = b.retrieved_context) &&
  decide (a.analyst_consensus = b.analyst_consensus) &&
  decide (a.peer_valuation = b.peer_valuation) &&
  decide (a.visualization_data = b.visualization_data) &&
  decide (a.report = b.report) &&
  decide (a.snapshot = b.snapshot) &&
  decide (a.report_metadata = b.report_metadata) &&
  decide (a.errors = b.errors) &&
  decide (a.timestamp = b.timestamp) &&
  decide (a.total_tokens_used = b.total_tokens_used) &&
  decide (a.retry_count = b.retry_count)

/-- How one run of the execution envelope ended: via the success branch,
via the failure branch (permanent error or exhausted retries), or via the
unreachable fallback after the loop. -/
inductive EnvOutcome where
  | success
  | failure
  | fallback
deriving DecidableEq, Repr

/-- Observable behaviour of one `BaseAgent.__call__` run: how many times
the business function was invoked, the backoff sleeps performed in order,
how the run ended, and the partial state update returned. -/
structure EnvelopeResult where
  calls : Nat
  delays : List Rat
  outcome : EnvOutcome
  update : StateUpdate
deriving DecidableEq, Repr

/-- The success metrics dict of `BaseAgent.__call__`
(`backend/agents/base_agent.py`, lines 95-100); `tokens_used` is the
hard-coded `0` of the source and `elapsed` stands for the measured wall
time. -/
def successMetrics (elapsed : Rat) (attempt : Nat) : Dict PyVal :=
  [("execution_time", .pyFloat elapsed),
   ("tokens_used", .pyInt 0),
   ("attempts", .pyInt (attempt + 1)),
   ("success", .pyBool true)]

/-- The failure metrics dict of `BaseAgent.__call__`
(`backend/agents/base_agent.py`, lines 138-145). -/
def failureMetrics (elapsed : Rat) (attempt : Nat) (e : PyError) : Dict PyVal :=
  [("execution_time", .pyFloat elapsed),
   ("tokens_used", .pyInt 0),
   ("attempts", .pyInt (attempt + 1)),
   ("success", .pyBool false),
   ("error_type", .pyStr e.typeName),
   ("is_transient", .pyBool (isTransientError e))]

/-- The success-branch update of `BaseAgent.__call__`
(`backend/agents/base_agent.py`, lines 102-113): the partial update the
business function returned, with the envelope's `executed_agents` and
`agent_metrics` bookkeeping written over it, plus the reasoning chain when
any steps were recorded. -/
def successUpdate (name : String) (elapsed : Rat) (steps : List String)
    (ns : StateUpdate) (attempt : Nat) : StateUpdate :=
  { ns with
    executed_agents := some [name]
    agent_metrics := some [(name, successMetrics elapsed attempt)]
    reasoning_chains :=
      if steps.isEmpty then ns.reasoning_chains else some [(name, steps)] }

/-- The failure-branch update of `BaseAgent.__call__`
(`backend/agents/base_agent.py`, lines 147-162): a global error-list
entry, the per-node error map and metrics map entries, the executed-nodes
entry, and `retry_count` bumped by one from the input state. -/
def failureUpdate (name : String) (stateRetryCount : Int) (elapsed : Rat)
    (steps : List String) (e : PyError) (attempt : Nat) : StateUpdate :=
  { errors := some [name ++ " agent error: " ++ e.msg]
    executed_agents := some [name]
    agent_errors := some [(name, e.msg)]
    agent_metrics := some [(name, failureMetrics elapsed attempt e)]
    retry_count := some (stateRetryCount + 1)
    reasoning_chains :=
      if steps.isEmpty then none
      else some [(name, steps ++ ["ERROR: " ++ e.msg])] }

/-- The post-loop safety fallback of `BaseAgent.__call__`
(`backend/agents/base_agent.py`, lines 164-168). -/
def fallbackUpdate (name : String) : StateUpdate :=
  { errors := some [name ++ " agent: unexpected execution path"]
    executed_agents := some [name] }

/-- The retry loop of `BaseAgent.__call__`
(`backend/agents/base_agent.py`, lines 80-162), unrolled on the number of
attempts still available (`left = maxRetries + 1 - attempt` from the top).
`f n` is the outcome of the n-th invocation of `self.execute(state)`
(counted from 0): a partial update, or the exception it raised.  On an
exception the error is classified; if it is transient and this is not the
last attempt the envelope sleeps `retryDelay * 2 ^ attempt` and retries,
otherwise it returns the failure update. -/
def envelopeLoop (name : String) (maxRetries : Nat) (retryDelay : Rat)
    (stateRetryCount : Int) (elapsed : Rat) (steps : List String)
    (f : Nat → Except PyError StateUpdate) :
    Nat → Nat → EnvelopeResult
  | _, 0 =>
    ⟨0, [], .fallback, fallbackUpdate name⟩
  | attempt, left + 1 =>
    match f attempt with
    | .ok ns =>
      ⟨1, [], .success, successUpdate name elapsed steps ns attempt⟩
    | .error e =>
      let isTransient := isTransientError e
      let isLastAttempt := attempt = maxRetries
      if isTransient ∧ ¬ isLastAttempt then
        let delay := retryDelay * 2 ^ attempt
        let rest := envelopeLoop name maxRetries retryDelay stateRetryCount
          elapsed steps f (attempt + 1) left
        ⟨rest.calls + 1, delay :: rest.delays, rest.outcome, rest.update⟩
      else
        ⟨1, [], .failure, failureUpdate name stateRetryCount elapsed steps e attempt⟩

/-- `BaseAgent.__call__` (`backend/agents/base_agent.py`, lines 60-168):
`for attempt in range(self.max_retries + 1)` starting at attempt 0. -/
def envelopeRun (name : String) (maxRetries : Nat) (retryDelay : Rat)
    (stateRetryCount : Int) (elapsed : Rat) (steps : List String)
    (f : Nat → Except PyError StateUpdate) : EnvelopeResult :=
  envelopeLoop name maxRetries retryDelay stateRetryCount elapsed steps f 0
    (maxRetries + 1)

/-- `BaseAgent.__init__` default `max_retries` (2, i.e. 3 total attempts). -/
def defaultMaxRetries : Nat := 2

/-- `BaseAgent.__init__` default `retry_delay` (1.0 seconds). -/
def defaultRetryDelay : Rat := 1

/-- The slice of the LangGraph state that `route_to_agents`
(`backend/agents/graph.py`) reads.  `is_query_valid` is an ad-hoc key set
by the validation node, so it may be absent (`state.get("is_query_valid",
True)` defaults to valid); the three dispatch flags and `tickers` are
always present on `AgentState` (their `.get` defaults never fire). -/
structure RouteState where
  is_query_valid : Option Bool
  tickers : List String
  should_fetch_market_data : Bool
  should_analyze_sentiment : Bool
  should_retrieve_context : Bool
deriving DecidableEq, Repr

/-- `route_to_agents` (`backend/agents/graph.py`, lines 325-402): the list
of node names the router dispatches (`Send` targets, in append order).
An invalid query short-circuits to no dispatch; RAG runs when the context
flag is set or no tickers were found; market data and forward-looking run
together when the market flag is set with tickers; sentiment runs when its
flag is set with tickers; if tickers exist but neither the market nor the
sentiment flag is set, the fallback queues market data, sentiment and
forward-looking (skipping any already queued). -/
def routeToAgents (s : RouteState) : List String :=
  let tickers := s.tickers
  let hasTickers := !tickers.isEmpty
  if !(s.is_query_valid.getD true) then
    []
  else
    let shouldFetchMarket := s.should_fetch_market_data
    let shouldAnalyzeSentiment := s.should_analyze_sentiment
    let shouldRetrieveContext := s.should_retrieve_context
    let sends1 :=
      if shouldRetrieveContext then ["rag_retrieval"]
      else if !hasTickers then ["rag_retrieval"]
      else []
    let sends2 :=
      sends1 ++ (if shouldFetchMarket && hasTickers then ["market_data"] else [])
    let sends3 :=
      sends2 ++ (if shouldAnalyzeSentiment && hasTickers then ["sentiment"] else [])
    let sends4 :=
      sends3 ++ (if shouldFetchMarket && hasTickers then ["forward_looking"] else [])
    if hasTickers && !shouldFetchMarket && !shouldAnalyzeSentiment then
      let sends5 :=
        if sends4.contains "market_data" then sends4
        else sends4 ++ ["market_data"]
      let sends6 :=
        if sends5.contains "sentiment" then sends5
        else sends5 ++ ["sentiment"]
      let sends7 :=
        if sends6.contains "forward_looking" then sends6
        else sends6 ++ ["forward_looking"]
      sends7
    else
      sends4

/-- The update the validation node writes: `validation_result`,
an optional `validation_reason`, and `is_query_valid`
(`backend/agents/graph.py`, `validation_node` / `validation_chain`). -/
structure ValidationUpdate where
  validation_result : String
  validation_reason : Option String
  is_query_valid : Bool
deriving DecidableEq, Repr

/-- The tail of `validation_chain` (`backend/agents/graph.py`, lines
48-54): the LLM reply content is stripped and the query is valid exactly
when the stripped reply is `"VALID"`. -/
def validationChain (llmContent : String) : ValidationUpdate :=
  let x := llmContent.trim
  ⟨x, none, decide (x = "VALID")⟩

/-- `validation_node` (`backend/agents/graph.py`, lines 100-124): an empty
query is invalid outright; otherwise the validation chain is invoked
(`chainOutcome` is its reply content, or the exception it raised) and any
exception marks the query INVALID. -/
def validationNode (query : String)
    (chainOutcome : Except PyError String) : ValidationUpdate :=
  if query = "" then
    ⟨"INVALID", some "Empty query", false⟩
  else
    match chainOutcome with
    | .ok content => validationChain content
    | .error e => ⟨"INVALID", some ("Validation error: " ++ e.msg), false⟩

/-- The result of `RouterAgent._analyze_intent`: the detected intent and
the `(fetch_market, analyze_sentiment, retrieve_context)` dispatch
flags. -/
structure IntentResult where
  intent : String
  fetch_market : Bool
  analyze_sentiment : Bool
  retrieve_context : Bool
deriving DecidableEq, Repr

/-- The `except` fallback of `RouterAgent._analyze_intent`
(`backend/agents/router_agent.py`, lines 278-297): with tickers, general
research with every flag set; without tickers, context retrieval only. -/
def analyzeIntentFallback (tickers : List String) : IntentResult :=
  if !tickers.isEmpty then
    ⟨"general_research", true, true, true⟩
  else
    ⟨"general_research", false, false, true⟩

/-- `RouterAgent._analyze_intent` (`backend/agents/router_agent.py`, lines
133-297): `outcome` is the parsed result of the LLM round-trip, or the
exception raised anywhere inside the `try` (the completion call or the
JSON parse); any exception triggers the conservative fallback. -/
def analyzeIntent (tickers : List String)
    (outcome : Except PyError IntentResult) : IntentResult :=
  match outcome with
  | .ok r => r
  | .error _ => analyzeIntentFallback tickers

/-- `MarketDataAgent.execute`'s per-ticker loop
(`backend/agents/market_data_agent.py`, lines 55-87): for each ticker the
market-data fetch and the peer-valuation fetch each either raise
(`Except.error`, only logged), return `None` (`Option.none`, skipped), or
return a result that is appended; one ticker's failure never affects the
others. -/
def marketDataLoop (fetch : String → Except PyError (Option MarketData))
    (fetchPeer : String → Except PyError (Option PeerValuation)) :
    List String → List MarketData × List PeerValuation
  | [] => ([], [])
  | t :: rest =>
    let tail := marketDataLoop fetch fetchPeer rest
    let md :=
      match fetch t with
      | .ok (some d) => [d]
      | _ => []
    let pv :=
      match fetchPeer t with
      | .ok (some p) => [p]
      | _ => []
    (md ++ tail.1, pv ++ tail.2)

/-- A full state viewed as an update that re-asserts every field, as
happens when a Python node returns the input `state` dict itself. -/
def stateAsUpdate (s : AgentState) : StateUpdate where
  session_id := some s.session_id
  user_query := some s.user_query
  conversation_history := some s.conversation_history
  intent := some s.intent
  tickers := some s.tickers
  should_fetch_market_data := some s.should_fetch_market_data
  should_analyze_sentiment := some s.should_analyze_sentiment
  should_retrieve_context := some s.should_retrieve_context
  executed_agents := some s.executed_agents
  agent_errors := some s.agent_errors
  agent_metrics := some s.agent_metrics
  reasoning_chains := some s.reasoning_chains
  market_data := some s.market_data
  sentiment_analysis := some s.sentiment_analysis
  retrieved_context := some s.retrieved_context
  analyst_consensus := some s.analyst_consensus
  peer_valuation := some s.peer_valuation
  visualization_data := some s.visualization_data
  report := some s.report
  snapshot := some s.snapshot
  report_metadata := some s.report_metadata
  errors := some s.errors
  timestamp := some s.timestamp
  total_tokens_used := some s.total_tokens_used
  retry_count := some s.retry_count

/-- `MarketDataAgent.execute` (`backend/agents/market_data_agent.py`,
lines 44-92): with no tickers the node returns the input state itself
(`return state`); otherwise only the collected `market_data` and
`peer_valuation` lists are returned. -/
def marketDataExecute (state : AgentState)
    (fetch : String → Except PyError (Option MarketData))
    (fetchPeer : String → Except PyError (Option PeerValuation)) :
    StateUpdate :=
  if state.tickers.isEmpty then
    stateAsUpdate state
  else
    let collected := marketDataLoop fetch fetchPeer state.tickers
    { market_data := some collected.1, peer_valuation := some collected.2 }

/-- `market_data_available` as computed by `create_research_query`
(`backend/api/routes/research.py`, lines 125-129): some market-data result
exists and the market-data node recorded no node-level error. -/
def marketDataAvailable (finalState : AgentState) : Bool :=
  decide (0 < finalState.market_data.length) &&
  !(dictHasKey finalState.agent_errors "market_data")

/-- `_evaluate_report_quality` returns this pair: the normalized quality
score and the feedback dict. -/
abbrev QualityResult : Type := Rat × Dict PyVal

/-- Read `feedback.get("overall_score", 5.0)` as a number
(`backend/agents/report_agent.py`, line 343). -/
def overallScoreOf (feedback : Dict PyVal) : Rat :=
  match dictLookup feedback "overall_score" with
  | some (.pyFloat q) => q
  | some (.pyInt n) => (n : Rat)
  | _ => 5

/-- The fallback feedback dict of `_evaluate_report_quality`
(`backend/agents/report_agent.py`, lines 348-360). -/
def evaluationFallbackFeedback : Dict PyVal :=
  [("completeness", .pyInt 8), ("consistency", .pyInt 8),
   ("actionability", .pyInt 8), ("clarity", .pyInt 8),
   ("overall_score", .pyFloat 8),
   ("summary",
    .pyStr "Quality evaluation failed, assuming acceptable quality.")]

/-- `ReportAgent._evaluate_report_quality`
(`backend/agents/report_agent.py`, lines 251-360): on success the LLM's
feedback dict is returned with `overall_score / 10` as the normalized
score; on any exception the report is assumed acceptable with score
0.85. -/
def evaluateReportQuality (outcome : Except PyError (Dict PyVal)) :
    QualityResult :=
  match outcome with
  | .ok feedback => (overallScoreOf feedback / 10, feedback)
  | .error _ => (85 / 100, evaluationFallbackFeedback)

/-- The reflection loop of `ReportAgent._generate_report_with_reflection`
(`backend/agents/report_agent.py`, lines 175-249), unrolled on the number
of loop iterations still available.  `iteration` is the Python loop
variable (1-based); `curReport`/`curFeedback` are the report and quality
feedback of the previous iteration.  Each iteration generates (iteration
1) or refines (iteration ≥ 2) the report, evaluates it, and breaks once
the score reaches the threshold.  Returns the final report, the value of
`iteration` on return, and how many refinement passes ran. -/
def reflectLoop (initialReport : String)
    (refine : String → Dict PyVal → String)
    (evalQ : String → QualityResult) (threshold : Rat) :
    Nat → Nat → String → Dict PyVal → String × Nat × Nat
  | iteration, 0, curReport, _ => (curReport, iteration - 1, 0)
  | iteration, left + 1, curReport, curFeedback =>
    let report := if iteration = 1 then initialReport
      else refine curReport curFeedback
    let result := evalQ report
    if threshold ≤ result.1 then
      (report, iteration, if iteration = 1 then 0 else 1)
    else
      let rest := reflectLoop initialReport refine evalQ threshold
        (iteration + 1) left report result.2
      (rest.1, rest.2.1, rest.2.2 + (if iteration = 1 then 0 else 1))

/-- `ReportAgent._generate_report_with_reflection`
(`backend/agents/report_agent.py`, lines 129-249): the loop starts at
iteration 1 with no report yet (`report = None`, modelled by the unused
empty string) and runs at most `maxIterations` times. -/
def generateReportWithReflection (initialReport : String)
    (refine : String → Dict PyVal → String)
    (evalQ : String → QualityResult)
    (maxIterations : Nat) (threshold : Rat) : String × Nat × Nat :=
  reflectLoop initialReport refine evalQ threshold 1 maxIterations "" []

/-- Default `max_iterations` of the reflection loop (3). -/
def defaultMaxIterations : Nat := 3

/-- Default `quality_threshold` of the reflection loop (0.85). -/
def defaultQualityThreshold : Rat := 85 / 100

theorem dictLookup_append {V : Type} (a b : Dict V) (k : String) :
    dictLookup (a ++ b) k =
      match dictLookup a k with
      | some v => some v
      | none => dictLookup b k := by
  induction a with
  | nil => simp [dictLookup]
  | cons kv rest ih =>
    by_cases h : kv.1 = k
    · simp [dictLookup, h]
    · simpa [dictLookup, h] using ih

theorem dictLookup_override {V : Type} (a b : Dict V) (k : String) :
    dictLookup (a.map (fun kv =>
      match dictLookup b kv.1 with
      | some v => (kv.1, v)
      | none => kv)) k =
      match dictLookup a k with
      | some v =>
        match dictLookup b k with
        | some w => some w
        | none => some v
      | none => none := by
  induction a with
  | nil => simp [dictLookup]
  | cons kv rest ih =>
    by_cases h : kv.1 = k
    · subst h
      cases hb : dictLookup b kv.1 <;> simp [dictLookup, hb]
    · cases hb : dictLookup b kv.1 <;> simp [dictLookup, hb, h] <;> exact ih

theorem dictLookup_filterKeys {V : Type} (b : Dict V) (p : String → Bool)
    (k : String) (hk : p k = true) :
    dictLookup (b.filter (fun kv => p kv.1)) k = dictLookup b k := by
  induction b with
  | nil => simp [dictLookup]
  | cons kv rest ih =>
    by_cases h : kv.1 = k
    · subst h
      simp [List.filter, hk, dictLookup]
    · cases hp : p kv.1 <;> simp [List.filter, hp, dictLookup, h, ih]

theorem dictLookup_filterKeys_none {V : Type} (b : Dict V) (p : String → Bool)
    (k : String) (hk : dictLookup b k = none) :
    dictLookup (b.filter (fun kv => p kv.1)) k = none := by
  induction b with
  | nil => simp [dictLookup]
  | cons kv rest ih =>
    by_cases h : kv.1 = k
    · simp [dictLookup, h] at hk
    · simp [dictLookup, h] at hk
      cases hp : p kv.1 <;> simp [List.filter, hp, dictLookup, h, ih hk]

/-- Looking a key up in `{**a, **b}`: `b`'s binding wins, else `a`'s. -/
theorem dictLookup_dictOr {V : Type} (a b : Dict V) (k : String) :
    dictLookup (dictOr a b) k =
      match dictLookup b k with
      | some v => some v
      | none => dictLookup a k := by
  unfold dictOr
  rw [dictLookup_append, dictLookup_override]
  cases ha : dictLookup a k with
  | some v =>
    cases hb : dictLookup b k <;> simp
  | none =>
    cases hb : dictLookup b k with
    | some v =>
      simp only
      rw [dictLookup_filterKeys b (fun x => (dictLookup a x).isNone) k (by simp [ha]), hb]
    | none =>
      simp only
      exact dictLookup_filterKeys_none b (fun x => (dictLookup a x).isNone) k hb

theorem disjointKeys_lookup {V W : Type} (a : Dict V) (b : Dict W)
    (h : disjointKeys a b = true) (k : String) (v : V)
    (hv : dictLookup a k = some v) : dictLookup b k = none := by
  induction a with
  | nil => simp [dictLookup] at hv
  | cons kv rest ih =>
    rw [disjointKeys, List.all_cons, Bool.and_eq_true] at h
    by_cases hk : kv.1 = k
    · subst hk
      simpa [Option.isNone_iff_eq_none] using h.1
    · rw [dictLookup, if_neg hk] at hv
      exact ih h.2 hv

/-- Two dicts with pointwise-equal lookups are Python-equal under any
reflexive value comparison. -/
theorem dictBeqWith_of_lookup_eq {V : Type} (vbeq : V → V → Bool)
    (hrefl : ∀ v, vbeq v v = true) (a b : Dict V)
    (h : ∀ k, dictLookup a k = dictLookup b k) :
    dictBeqWith vbeq a b = true := by
  have hmem : ∀ kv : String × V, optBeqWith vbeq (dictLookup a kv.1) (dictLookup b kv.1) = true := by
    intro kv
    rw [h kv.1]
    cases dictLookup b kv.1 with
    | none => rfl
    | some v => exact hrefl v
  rw [dictBeqWith, Bool.and_eq_true, List.all_eq_true, List.all_eq_true]
  exact ⟨fun kv _ => hmem kv, fun kv _ => hmem kv⟩

theorem dictBeq_of_lookup_eq {V : Type} [DecidableEq V] (a b : Dict V)
    (h : ∀ k, dictLookup a k = dictLookup b k) : dictBeq a b = true :=
  dictBeqWith_of_lookup_eq _ (fun v => by simp) a b h

/-- Union-map merge policy: merging two key-disjoint updates into the same
base in either order gives pointwise-equal dicts. -/
theorem applyOr_comm_lookup {V : Type} (d : Dict V) (o1 o2 : Option (Dict V))
    (hdisj : disjointKeys (o1.getD []) (o2.getD []) = true) (k : String) :
    dictLookup (applyOr (applyOr d o1) o2) k =
      dictLookup (applyOr (applyOr d o2) o1) k := by
  unfold applyOr
  rw [dictLookup_dictOr, dictLookup_dictOr, dictLookup_dictOr, dictLookup_dictOr]
  cases h1 : dictLookup (o1.getD []) k with
  | some v =>
    rw [disjointKeys_lookup _ _ hdisj k v h1]
  | none =>
    cases h2 : dictLookup (o2.getD []) k <;> simp

/-- Two optional writes to the same overwrite field are compatible when
they do not carry distinct values. -/
def optCompat {α : Type} [DecidableEq α] : Option α → Option α → Bool
  | some x, some y => decide (x = y)
  | _, _ => true

/-- Overwrite merge policy: two compatible writes land on the same value
in either order. -/
theorem applyOv_comm {α : Type} [DecidableEq α] (x : α) (a b : Option α)
    (h : optCompat a b = true) :
    applyOv (applyOv x a) b = applyOv (applyOv x b) a := by
  cases a with
  | none => cases b <;> rfl
  | some v =>
    cases b with
    | none => rfl
    | some w =>
      have : v = w := by simpa [optCompat] using h
      subst this
      rfl

/-- Append-list merge policy: the two application orders give permutations
of one another. -/
theorem applyAdd_perm {α : Type} (x : List α) (a b : Option (List α)) :
    (applyAdd (applyAdd x a) b).Perm (applyAdd (applyAdd x b) a) := by
  unfold applyAdd
  rw [List.append_assoc, List.append_assoc]
  exact List.Perm.append_left x (List.perm_append_comm)

/-- Two partial updates are compatible when they do not write distinct
values into the same overwrite field and do not write the same key of a
union-map field (updates of distinct branches of one Router evaluation
write their union-map entries under their own distinct node names, and the
only overwrite field both branches can write, `retry_count`, gets the same
value from both because each computes it from the shared pre-branch
snapshot). -/
def updatesCompatible (u1 u2 : StateUpdate) : Prop :=
  optCompat u1.session_id u2.session_id = true ∧
  optCompat u1.user_query u2.user_query = true ∧
  optCompat u1.conversation_history u2.conversation_history = true ∧
  optCompat u1.intent u2.intent = true ∧
  optCompat u1.tickers u2.tickers = true ∧
  optCompat u1.should_fetch_market_data u2.should_fetch_market_data = true ∧
  optCompat u1.should_analyze_sentiment u2.should_analyze_sentiment = true ∧
  optCompat u1.should_retrieve_context u2.should_retrieve_context = true ∧
  optCompat u1.report u2.report = true ∧
  optCompat u1.snapshot u2.snapshot = true ∧
  optCompat u1.report_metadata u2.report_metadata = true ∧
  optCompat u1.timestamp u2.timestamp = true ∧
  optCompat u1.total_tokens_used u2.total_tokens_used = true ∧
  optCompat u1.retry_count u2.retry_count = true ∧
  disjointKeys (u1.agent_errors.getD []) (u2.agent_errors.getD []) = true ∧
  disjointKeys (u1.agent_metrics.getD []) (u2.agent_metrics.getD []) = true ∧
  disjointKeys (u1.reasoning_chains.getD []) (u2.reasoning_chains.getD []) = true

/-- The two merge orders agree up to the order of the append-list fields:
every overwrite field is identical, every union-map field is Python-equal
(same keys, same values), and every append-list field holds the same
elements up to permutation. -/
def mergeOrderInsensitive (l r : AgentState) : Prop :=
  l.session_id = r.session_id ∧
  l.user_query = r.user_query ∧
  l.conversation_history = r.conversation_history ∧
  l.intent = r.intent ∧
  l.tickers = r.tickers ∧
  l.should_fetch_market_data = r.should_fetch_market_data ∧
  l.should_analyze_sentiment = r.should_analyze_sentiment ∧
  l.should_retrieve_context = r.should_retrieve_context ∧
  l.report = r.report ∧
  l.snapshot = r.snapshot ∧
  l.report_metadata = r.report_metadata ∧
  l.timestamp = r.timestamp ∧
  l.total_tokens_used = r.total_tokens_used ∧
  l.retry_count = r.retry_count ∧
  dictBeq l.agent_errors r.agent_errors = true ∧
  dictBeqWith dictBeq l.agent_metrics r.agent_metrics = true ∧
  dictBeq l.reasoning_chains r.reasoning_chains = true ∧
  l.executed_agents.Perm r.executed_agents ∧
  l.market_data.Perm r.market_data ∧
  l.sentiment_analysis.Perm r.sentiment_analysis ∧
  l.retrieved_context.Perm r.retrieved_context ∧
  l.analyst_consensus.Perm r.analyst_consensus ∧
  l.peer_valuation.Perm r.peer_valuation ∧
  l.visualization_data.Perm r.visualization_data ∧
  l.errors.Perm r.errors

theorem dictBeq_refl {V : Type} [DecidableEq V] (d : Dict V) :
    dictBeq d d = true :=
  dictBeq_of_lookup_eq d d (fun _ => rfl)

/-- C1 (amended): for any state and any two compatible partial updates —
as the updates of two distinct branches of one Router evaluation are —
merging in either order yields final states that agree on every overwrite
field, are Python-equal on every union-map field, and whose append-list
fields are permutations of one another.  Strict state equality does not
hold, because `operator.add` list concatenation is order-sensitive (see
the counterexample). -/
theorem merge_concurrent_updates_order_insensitive (S : AgentState)
    (U1 U2 : StateUpdate) (h : updatesCompatible U1 U2) :
    mergeOrderInsensitive (applyUpdate (applyUpdate S U1) U2)
      (applyUpdate (applyUpdate S U2) U1) := by
  obtain ⟨h1, h2, h3, h4, h5, h6, h7, h8, h9, h10, h11, h12, h13, h14,
    he, hm, hr⟩ := h
  exact ⟨applyOv_comm _ _ _ h1, applyOv_comm _ _ _ h2, applyOv_comm _ _ _ h3,
    applyOv_comm _ _ _ h4, applyOv_comm _ _ _ h5, applyOv_comm _ _ _ h6,
    applyOv_comm _ _ _ h7, applyOv_comm _ _ _ h8, applyOv_comm _ _ _ h9,
    applyOv_comm _ _ _ h10, applyOv_comm _ _ _ h11, applyOv_comm _ _ _ h12,
    applyOv_comm _ _ _ h13, applyOv_comm _ _ _ h14,
    dictBeq_of_lookup_eq _ _ (applyOr_comm_lookup _ _ _ he),
    dictBeqWith_of_lookup_eq dictBeq dictBeq_refl _ _
      (applyOr_comm_lookup _ _ _ hm),
    dictBeq_of_lookup_eq _ _ (applyOr_comm_lookup _ _ _ hr),
    applyAdd_perm _ _ _, applyAdd_perm _ _ _, applyAdd_perm _ _ _,
    applyAdd_perm _ _ _, applyAdd_perm _ _ _, applyAdd_perm _ _ _,
    applyAdd_perm _ _ _, applyAdd_perm _ _ _⟩

/-- A fresh run's state before the fan-out, for the concurrency scenario. -/
def concurrencyDemoState : AgentState :=
  createInitialState "session-1" "AAPL price and sentiment" []
    "2026-01-01T00:00:00"

/-- A concrete market-data row for ticker AAPL. -/
def demoMarketData : MarketData :=
  ⟨"AAPL", some 150, some 1, some 1000000, some 3000000000, some 30,
   some 155, some 148, some 180, some 120, some 50, some (-16), some 25,
   some "mid_range"⟩

/-- A concrete sentiment row for ticker AAPL. -/
def demoSentiment : SentimentAnalysis :=
  ⟨"AAPL", "positive", 8 / 10, ["earnings"], 5, "Positive coverage."⟩

/-- The partial update produced by a successful run of the market-data
branch through the execution envelope. -/
def marketBranchUpdate : StateUpdate :=
  (envelopeRun "market_data" defaultMaxRetries defaultRetryDelay 0 (1 / 2) []
    (fun _ => .ok
      { market_data := some [demoMarketData], peer_valuation := some [] })).update

/-- The partial update produced by a successful run of the sentiment
branch through the execution envelope. -/
def sentimentBranchUpdate : StateUpdate :=
  (envelopeRun "sentiment" defaultMaxRetries defaultRetryDelay 0 (3 / 10) []
    (fun _ => .ok { sentiment_analysis := some [demoSentiment] })).update

/-- C1 counterexample: the market-data and the sentiment branch are both
dispatched by one Router evaluation (first conjunct), yet merging their
envelope updates into the same pre-branch state in the two orders yields
states that are NOT equal — the `executed_agents` append-list field
records the two node names in opposite orders, so Python `==` on the final
states is false. -/
theorem merge_not_strictly_commutative :
    routeToAgents ⟨some true, ["AAPL"], true, true, false⟩ =
      ["market_data", "sentiment", "forward_looking"] ∧
    (applyUpdate (applyUpdate concurrencyDemoState marketBranchUpdate)
      sentimentBranchUpdate).executed_agents = ["market_data", "sentiment"] ∧
    (applyUpdate (applyUpdate concurrencyDemoState sentimentBranchUpdate)
      marketBranchUpdate).executed_agents = ["sentiment", "market_data"] ∧
    pyStateEq
      (applyUpdate (applyUpdate concurrencyDemoState marketBranchUpdate)
        sentimentBranchUpdate)
      (applyUpdate (applyUpdate concurrencyDemoState sentimentBranchUpdate)
        marketBranchUpdate) = false := by
  refine ⟨by decide, by decide, by decide, by decide⟩

/-- C1 witness: the two branch updates of the scenario are compatible, and
the amended theorem applies to them. -/
theorem merge_concurrent_updates_order_insensitive_witness :
    updatesCompatible marketBranchUpdate sentimentBranchUpdate ∧
    mergeOrderInsensitive
      (applyUpdate (applyUpdate concurrencyDemoState marketBranchUpdate)
        sentimentBranchUpdate)
      (applyUpdate (applyUpdate concurrencyDemoState sentimentBranchUpdate)
        marketBranchUpdate) :=
  ⟨by unfold updatesCompatible; decide,
   merge_concurrent_updates_order_insensitive concurrencyDemoState
     marketBranchUpdate sentimentBranchUpdate
     (by unfold updatesCompatible; decide)⟩

/-- C4: for every state — any validity flag (present or absent), any
dispatch flags, any ticker list — the Router's dispatch list contains no
node identifier twice. -/
theorem route_to_agents_no_duplicates (s : RouteState) :
    (routeToAgents s).Nodup := by
  obtain ⟨v, t, m, sn, c⟩ := s
  simp only [routeToAgents]
  cases hv : v.getD true <;> cases ht : t.isEmpty <;>
    cases m <;> cases sn <;> cases c <;> simp [hv, ht]

/-- C7: for every valid-query state (the validity key absent or true) with
dispatch flags market=true, sentiment=false, context=false and exactly one
extracted identifier, the Router dispatches exactly market-data and
forward-looking; document retrieval is not dispatched. -/
theorem route_market_flag_single_ticker (v : Option Bool) (t : List String)
    (hv : v.getD true = true) (ht : t.length = 1) :
    routeToAgents ⟨v, t, true, false, false⟩ =
      ["market_data", "forward_looking"] := by
  have hne : t.isEmpty = false := by
    cases t with
    | nil => simp at ht
    | cons a l => simp
  simp [routeToAgents, hv, hne]

/-- C7 witness: the spec's concrete scenario — one identifier AAPL,
market flag only. -/
theorem route_market_flag_single_ticker_witness :
    routeToAgents ⟨some true, ["AAPL"], true, false, false⟩ =
      ["market_data", "forward_looking"] :=
  route_market_flag_single_ticker (some true) ["AAPL"] (by decide) (by decide)

/-- C2 counterexample: when the validation chain raises, `validation_node`
marks the query invalid, and the Router then dispatches NOTHING — even
though the query has an extracted identifier and every dispatch flag is
set — contradicting the claim that a validation-service failure still
dispatches via the fallback policy. -/
theorem validation_chain_failure_dispatches_nothing :
    (validationNode "AAPL price"
      (.error ⟨"TimeoutError", "Request timeout"⟩)).is_query_valid = false ∧
    routeToAgents
      ⟨some (validationNode "AAPL price"
        (.error ⟨"TimeoutError", "Request timeout"⟩)).is_query_valid,
       ["AAPL"], true, true, true⟩ = [] := by
  exact ⟨by decide, by decide⟩

/-- C2 (amended): a failure of the intent-classification call inside the
router node fails open — with identifiers the fallback sets every dispatch
flag and all four specialist nodes are dispatched, without identifiers
only context retrieval runs; but a failure of the validation chain node
fails closed: the query is marked invalid and the Router dispatches no
specialist node at all (for any flags). -/
theorem intent_failure_fails_open_validation_failure_closed
    (t : List String) (e e2 : PyError) (q : String) (m sn c : Bool)
    (hq : q ≠ "") :
    (t ≠ [] → routeToAgents ⟨some true, t,
        (analyzeIntent t (.error e)).fetch_market,
        (analyzeIntent t (.error e)).analyze_sentiment,
        (analyzeIntent t (.error e)).retrieve_context⟩ =
      ["rag_retrieval", "market_data", "sentiment", "forward_looking"]) ∧
    (t = [] → routeToAgents ⟨some true, t,
        (analyzeIntent t (.error e)).fetch_market,
        (analyzeIntent t (.error e)).analyze_sentiment,
        (analyzeIntent t (.error e)).retrieve_context⟩ =
      ["rag_retrieval"]) ∧
    (validationNode q (.error e2)).is_query_valid = false ∧
    routeToAgents ⟨some false, t, m, sn, c⟩ = [] := by
  refine ⟨?_, ?_, ?_, ?_⟩
  · intro hne
    have hemp : t.isEmpty = false := by
      cases t with
      | nil => exact absurd rfl hne
      | cons a l => simp
    simp [analyzeIntent, analyzeIntentFallback, routeToAgents, hemp]
  · intro hnil
    subst hnil
    simp [analyzeIntent, analyzeIntentFallback, routeToAgents]
  · simp [validationNode, hq]
  · simp [routeToAgents]

/-- C2 witness: the amended theorem at a concrete failing run (identifier
AAPL extracted, both services raising timeouts). -/
theorem intent_failure_fails_open_witness :
    (["AAPL"] ≠ [] → routeToAgents ⟨some true, ["AAPL"],
        (analyzeIntent ["AAPL"] (.error ⟨"APITimeoutError", "timeout"⟩)).fetch_market,
        (analyzeIntent ["AAPL"] (.error ⟨"APITimeoutError", "timeout"⟩)).analyze_sentiment,
        (analyzeIntent ["AAPL"] (.error ⟨"APITimeoutError", "timeout"⟩)).retrieve_context⟩ =
      ["rag_retrieval", "market_data", "sentiment", "forward_looking"]) ∧
    (["AAPL"] = [] → routeToAgents ⟨some true, ["AAPL"],
        (analyzeIntent ["AAPL"] (.error ⟨"APITimeoutError", "timeout"⟩)).fetch_market,
        (analyzeIntent ["AAPL"] (.error ⟨"APITimeoutError", "timeout"⟩)).analyze_sentiment,
        (analyzeIntent ["AAPL"] (.error ⟨"APITimeoutError", "timeout"⟩)).retrieve_context⟩ =
      ["rag_retrieval"]) ∧
    (validationNode "AAPL price"
      (.error ⟨"TimeoutError", "LLM unavailable"⟩)).is_query_valid = false ∧
    routeToAgents ⟨some false, ["AAPL"], true, true, true⟩ = [] :=
  intent_failure_fails_open_validation_failure_closed ["AAPL"]
    ⟨"APITimeoutError", "timeout"⟩ ⟨"TimeoutError", "LLM unavailable"⟩
    "AAPL price" true true true (by decide)

theorem envelopeLoop_all_transient (name : String) (maxRetries : Nat)
    (retryDelay : Rat) (rc : Int) (elapsed : Rat) (steps : List String)
    (f : Nat → Except PyError StateUpdate) (errs : Nat → PyError)
    (herr : ∀ n, f n = .error (errs n))
    (htr : ∀ n, isTransientError (errs n) = true) :
    ∀ l attempt, attempt + l = maxRetries →
      envelopeLoop name maxRetries retryDelay rc elapsed steps f attempt
          (l + 1) =
        ⟨l + 1, (List.range' attempt l).map (fun n => retryDelay * 2 ^ n),
         .failure,
         failureUpdate name rc elapsed steps (errs maxRetries) maxRetries⟩ := by
  intro l
  induction l with
  | zero =>
    intro attempt hatt
    have ha : attempt = maxRetries := by omega
    subst ha
    simp [envelopeLoop, herr attempt, htr attempt]
  | succ l ih =>
    intro attempt hatt
    have hne : ¬ (attempt = maxRetries) := by omega
    have hrec := ih (attempt + 1) (by omega)
    rw [envelopeLoop, herr attempt]
    simp only
    rw [if_pos ⟨htr attempt, hne⟩, hrec]
    simp [List.range'_succ]

/-- C3: a node whose business function raises a transient-classified error
on every attempt is invoked exactly `maxRetries + 1` times (the configured
total attempt count; 3 with the default `max_retries = 2`), sleeps
`retryDelay * 2 ^ (n-1)` before the n-th retry (the delays list, indexed
from 0), and ends in the failure branch returning the failure update
(global error-list entry, per-node error-map and metrics entries with
`success=false`, executed-nodes entry) instead of raising. -/
theorem envelope_transient_retry_bound (name : String) (maxRetries : Nat)
    (retryDelay : Rat) (rc : Int) (elapsed : Rat) (steps : List String)
    (f : Nat → Except PyError StateUpdate) (errs : Nat → PyError)
    (herr : ∀ n, f n = .error (errs n))
    (htr : ∀ n, isTransientError (errs n) = true) :
    envelopeRun name maxRetries retryDelay rc elapsed steps f =
      ⟨maxRetries + 1,
       (List.range maxRetries).map (fun n => retryDelay * 2 ^ n),
       .failure,
       failureUpdate name rc elapsed steps (errs maxRetries) maxRetries⟩ := by
  rw [envelopeRun,
    envelopeLoop_all_transient name maxRetries retryDelay rc elapsed steps f
      errs herr htr maxRetries 0 (by omega),
    List.range_eq_range']

/-- A connection-timeout error, classified transient by the keyword
scan. -/
def demoTimeoutError : PyError := ⟨"ReadTimeout", "connection timeout"⟩

/-- C3 witness: with the default configuration (`max_retries = 2`,
`retry_delay = 1.0`) and a business function that always raises a
connection timeout, the market-data node is invoked 3 times, sleeps 1s
then 2s, and returns the recorded failure update. -/
theorem envelope_transient_retry_bound_witness :
    (envelopeRun "market_data" defaultMaxRetries defaultRetryDelay 0 (1 / 2)
      [] (fun _ => .error demoTimeoutError)).calls = 3 ∧
    (envelopeRun "market_data" defaultMaxRetries defaultRetryDelay 0 (1 / 2)
      [] (fun _ => .error demoTimeoutError)).delays = [1, 2] ∧
    (envelopeRun "market_data" defaultMaxRetries defaultRetryDelay 0 (1 / 2)
      [] (fun _ => .error demoTimeoutError)).outcome = .failure ∧
    (envelopeRun "market_data" defaultMaxRetries defaultRetryDelay 0 (1 / 2)
      [] (fun _ => .error demoTimeoutError)).update =
        failureUpdate "market_data" 0 (1 / 2) [] demoTimeoutError 2 := by
  have htr : isTransientError demoTimeoutError = true := by decide
  have h := envelope_transient_retry_bound "market_data" defaultMaxRetries
    defaultRetryDelay 0 (1 / 2) [] (fun _ => .error demoTimeoutError)
    (fun _ => demoTimeoutError) (fun _ => rfl) (fun _ => htr)
  rw [h]
  refine ⟨rfl, ?_, rfl, rfl⟩
  show (List.range defaultMaxRetries).map
    (fun n => defaultRetryDelay * 2 ^ n) = [1, 2]
  simp [defaultMaxRetries, defaultRetryDelay, List.range_succ]

/-- C6: a node whose business function raises a permanent-classified error
on its first call is invoked exactly once, performs no backoff sleep, and
the envelope immediately returns the failure update recording the error in
the error list, the per-node error map, and the per-node metrics map with
`success=false`. -/
theorem envelope_permanent_no_retry (name : String) (maxRetries : Nat)
    (retryDelay : Rat) (rc : Int) (elapsed : Rat) (steps : List String)
    (f : Nat → Except PyError StateUpdate) (e : PyError)
    (h0 : f 0 = .error e) (hperm : isTransientError e = false) :
    envelopeRun name maxRetries retryDelay rc elapsed steps f =
      ⟨1, [], .failure, failureUpdate name rc elapsed steps e 0⟩ := by
  simp [envelopeRun, envelopeLoop, h0, hperm]

/-- A `ValueError` whose message even contains "timeout": permanent by
type precedence. -/
def demoValueError : PyError := ⟨"ValueError", "timeout value malformed"⟩

/-- C6 witness: a `ValueError` (permanent by type, even with "timeout" in
the message) makes the sentiment node fail after exactly one call with no
sleeps, and the returned update carries the error entries with
`success=false`. -/
theorem envelope_permanent_no_retry_witness :
    envelopeRun "sentiment" defaultMaxRetries defaultRetryDelay 0 (1 / 4) []
        (fun _ => .error demoValueError) =
      ⟨1, [], .failure,
       failureUpdate "sentiment" 0 (1 / 4) [] demoValueError 0⟩ ∧
    (failureUpdate "sentiment" 0 (1 / 4) [] demoValueError 0).agent_errors =
      some [("sentiment", "timeout value malformed")] ∧
    dictLookup (failureMetrics (1 / 4) 0 demoValueError) "success" =
      some (.pyBool false) :=
  ⟨envelope_permanent_no_retry "sentiment" defaultMaxRetries
     defaultRetryDelay 0 (1 / 4) [] (fun _ => .error demoValueError)
     demoValueError rfl (by decide),
   rfl, rfl⟩

theorem envelopeLoop_failure_retry_count (name : String) (maxRetries : Nat)
    (retryDelay : Rat) (rc : Int) (elapsed : Rat) (steps : List String)
    (f : Nat → Except PyError StateUpdate) :
    ∀ left attempt,
      (envelopeLoop name maxRetries retryDelay rc elapsed steps f attempt
          left).outcome = .failure →
      (envelopeLoop name maxRetries retryDelay rc elapsed steps f attempt
          left).update.retry_count = some (rc + 1) := by
  intro left
  induction left with
  | zero =>
    intro attempt h
    simp [envelopeLoop] at h
  | succ left ih =>
    intro attempt h
    rw [envelopeLoop] at h ⊢
    cases hf : f attempt with
    | ok ns => simp [hf] at h
    | error e =>
      simp only [hf] at h ⊢
      by_cases hc : isTransientError e = true ∧ ¬ attempt = maxRetries
      · simp only [if_pos hc] at h ⊢
        exact ih (attempt + 1) h
      · simp only [if_neg hc] at h ⊢
        rfl

/-- C10: whenever the execution envelope ends in its failure branch
(permanent error or exhausted transient retries), the returned update sets
`retry_count` to the input state's `retry_count` plus exactly one,
regardless of how many invocation attempts were made; the failure path
never increments it by more than one per node. -/
theorem envelope_failure_bumps_retry_count_once (name : String)
    (maxRetries : Nat) (retryDelay : Rat) (rc : Int) (elapsed : Rat)
    (steps : List String) (f : Nat → Except PyError StateUpdate)
    (h : (envelopeRun name maxRetries retryDelay rc elapsed steps
      f).outcome = .failure) :
    (envelopeRun name maxRetries retryDelay rc elapsed steps
      f).update.retry_count = some (rc + 1) :=
  envelopeLoop_failure_retry_count name maxRetries retryDelay rc elapsed
    steps f (maxRetries + 1) 0 h

/-- C10 witness: three transient failures (three attempts) still bump
`retry_count` by exactly one, from 7 to 8. -/
theorem envelope_failure_bumps_retry_count_once_witness :
    (envelopeRun "forward_looking" defaultMaxRetries defaultRetryDelay 7
      (1 / 3) [] (fun _ => .error demoTimeoutError)).outcome = .failure ∧
    (envelopeRun "forward_looking" defaultMaxRetries defaultRetryDelay 7
      (1 / 3) [] (fun _ => .error demoTimeoutError)).update.retry_count =
        some 8 :=
  ⟨by decide,
   envelope_failure_bumps_retry_count_once "forward_looking"
     defaultMaxRetries defaultRetryDelay 7 (1 / 3) []
     (fun _ => .error demoTimeoutError) (by decide)⟩

/-- C8: with the default bound of 3 iterations and acceptance threshold
0.85, a run whose first synthesis evaluates to normalized score 0.60 and
whose refined synthesis evaluates to 0.90 performs exactly one refinement
pass and stops the reflection loop after 2 iterations, not 3, returning
the refined report. -/
theorem reflection_loop_stops_after_two_iterations
    (initialReport : String) (refine : String → Dict PyVal → String)
    (evalOutcome : String → Except PyError (Dict PyVal))
    (h1 : (evaluateReportQuality (evalOutcome initialReport)).1 = 6 / 10)
    (h2 : (evaluateReportQuality (evalOutcome (refine initialReport
      (evaluateReportQuality (evalOutcome initialReport)).2))).1 = 9 / 10) :
    generateReportWithReflection initialReport refine
        (fun rep => evaluateReportQuality (evalOutcome rep))
        defaultMaxIterations defaultQualityThreshold =
      (refine initialReport
        (evaluateReportQuality (evalOutcome initialReport)).2, 2, 1) := by
  have hlt : ¬ (defaultQualityThreshold ≤
      (evaluateReportQuality (evalOutcome initialReport)).1) := by
    rw [h1]
    norm_num [defaultQualityThreshold]
  have hge : defaultQualityThreshold ≤
      (evaluateReportQuality (evalOutcome (refine initialReport
        (evaluateReportQuality (evalOutcome initialReport)).2))).1 := by
    rw [h2]
    norm_num [defaultQualityThreshold]
  show reflectLoop initialReport refine
    (fun rep => evaluateReportQuality (evalOutcome rep))
    defaultQualityThreshold 1 3 "" [] = _
  simp only [reflectLoop]
  norm_num
  rw [if_neg hlt, if_pos hge]

/-- The feedback dict the demo evaluator returns for the first draft. -/
def demoDraftFeedback : Dict PyVal :=
  [("overall_score", .pyFloat 6), ("gaps", .pyStr "missing valuation")]

/-- The feedback dict the demo evaluator returns for the refined report. -/
def demoRefinedFeedback : Dict PyVal :=
  [("overall_score", .pyFloat 9)]

/-- A demo quality-evaluation oracle: the first draft scores 6/10, any
other report 9/10. -/
def demoEvalOutcome (report : String) : Except PyError (Dict PyVal) :=
  if report = "draft" then .ok demoDraftFeedback else .ok demoRefinedFeedback

/-- A demo refinement oracle that appends a marker to the report. -/
def demoRefine (report : String) (feedback : Dict PyVal) : String :=
  report ++ (if feedback.isEmpty then "" else " refined")

/-- C8 witness: the concrete scenario — draft scores 0.60, its refinement
scores 0.90, and the loop returns the refined report after 2 iterations
with exactly 1 refinement pass. -/
theorem reflection_loop_stops_after_two_iterations_witness :
    generateReportWithReflection "draft" demoRefine
        (fun rep => evaluateReportQuality (demoEvalOutcome rep))
        defaultMaxIterations defaultQualityThreshold =
      (demoRefine "draft"
        (evaluateReportQuality (demoEvalOutcome "draft")).2, 2, 1) :=
  reflection_loop_stops_after_two_iterations "draft" demoRefine
    demoEvalOutcome
    (by simp [demoEvalOutcome, evaluateReportQuality, overallScoreOf,
      demoDraftFeedback, dictLookup])
    (by simp [demoEvalOutcome, demoRefine, evaluateReportQuality,
      overallScoreOf, demoDraftFeedback, demoRefinedFeedback, dictLookup])

/-- C9: when the market-data fetch fails for MSFT while the sibling
identifier AAPL in the same dispatch succeeds, the node's update carries
exactly the successful identifier's result, writes no node-level error
entry, and the run's `market_data_available` flag — computed from whether
any market-data result exists, not from whether every identifier
succeeded — is true on the merged state. -/
theorem market_data_partial_failure_isolated (S : AgentState)
    (fetch : String → Except PyError (Option MarketData))
    (fetchPeer : String → Except PyError (Option PeerValuation))
    (d : MarketData) (e : PyError)
    (hT : S.tickers = ["AAPL", "MSFT"])
    (hA : fetch "AAPL" = .ok (some d))
    (hM : fetch "MSFT" = .error e)
    (hE : dictLookup S.agent_errors "market_data" = none) :
    (marketDataExecute S fetch fetchPeer).market_data = some [d] ∧
    (marketDataExecute S fetch fetchPeer).agent_errors = none ∧
    marketDataAvailable
      (applyUpdate S (marketDataExecute S fetch fetchPeer)) = true := by
  have hexec : marketDataExecute S fetch fetchPeer =
      { market_data := some [d],
        peer_valuation :=
          some ((marketDataLoop fetch fetchPeer ["AAPL", "MSFT"]).2) } := by
    rw [marketDataExecute, hT]
    simp [marketDataLoop, hA, hM]
  refine ⟨by rw [hexec], by rw [hexec], ?_⟩
  rw [hexec]
  have hmd : (applyUpdate S
      { market_data := some [d],
        peer_valuation :=
          some ((marketDataLoop fetch fetchPeer ["AAPL", "MSFT"]).2) }).market_data =
      S.market_data ++ [d] := rfl
  have herr : (applyUpdate S
      { market_data := some [d],
        peer_valuation :=
          some ((marketDataLoop fetch fetchPeer ["AAPL", "MSFT"]).2) }).agent_errors =
      dictOr S.agent_errors [] := rfl
  rw [marketDataAvailable, hmd, herr, dictHasKey, dictLookup_dictOr]
  simp [dictLookup, hE]

/-- The pre-dispatch state of the C9 scenario: a comparison query over
AAPL and MSFT. -/
def marketDemoState : AgentState :=
  { createInitialState "session-2" "Compare AAPL and MSFT" []
      "2026-01-01T00:00:00" with
    tickers := ["AAPL", "MSFT"]
    should_fetch_market_data := true }

/-- The demo market-data provider: AAPL succeeds, MSFT times out. -/
def demoMarketFetch (t : String) : Except PyError (Option MarketData) :=
  if t = "AAPL" then .ok (some demoMarketData)
  else .error ⟨"ReadTimeout", "Request timeout for MSFT"⟩

/-- The demo peer-valuation provider: no peer data found. -/
def demoPeerFetch (_ : String) : Except PyError (Option PeerValuation) :=
  .ok none

/-- C9 witness: the concrete scenario — AAPL's row survives, MSFT's
timeout contributes nothing, no node-level error is written, and
`market_data_available` is true after the merge. -/
theorem market_data_partial_failure_isolated_witness :
    (marketDataExecute marketDemoState demoMarketFetch
      demoPeerFetch).market_data = some [demoMarketData] ∧
    (marketDataExecute marketDemoState demoMarketFetch
      demoPeerFetch).agent_errors = none ∧
    marketDataAvailable (applyUpdate marketDemoState
      (marketDataExecute marketDemoState demoMarketFetch demoPeerFetch)) =
        true :=
  market_data_partial_failure_isolated marketDemoState demoMarketFetch
    demoPeerFetch demoMarketData ⟨"ReadTimeout", "Request timeout for MSFT"⟩
    rfl rfl rfl rfl
